import Mathlib

/-!
# Verification of knm_vulkan_tools (header-only Vulkan helper layer)

Shallow embedding of the swap-chain / frame-presentation core of
`knm_vulkan_tools.hpp`, together with proofs of the specification claims.

The embedding models:

* `Application::drawFrame` (the per-frame acquire / submit / present cycle,
  lines 1169-1249 of the source) as a pure function over an oracle of the
  `VkResult` codes returned by the Vulkan calls, returning the list of calls
  it performed ("events") and the updated frame-loop state;
* `Application::createSyncObjects` (lines 2467-2489): the fence ring is
  created with `VK_FENCE_CREATE_SIGNALED_BIT`;
* `compareFeatures` / `Application::isDeviceSuitable` /
  `Application::pickPhysicalDevice` (device selection and version-tiered
  feature negotiation);
* `Application::createLogicalDevice`'s queue-deduplication via `std::set`;
* `Application::chooseSwapExtent`;
* `Application::recordTransitionImageLayoutCommand`.
-/

/-- Vulkan result codes, as far as `drawFrame` distinguishes them:
`VK_SUCCESS`, `VK_SUBOPTIMAL_KHR`, `VK_ERROR_OUT_OF_DATE_KHR`, and every
other code (carried as its raw integer value). -/
inductive VkResult where
  | success
  | suboptimalKHR
  | errorOutOfDateKHR
  | other (code : Int)
  deriving DecidableEq, Repr

/-- Constant `MAX_NB_FRAMES_IN_FLIGHT` (source line 990). -/
def MAX_NB_FRAMES_IN_FLIGHT : Nat := 2

/-- CPU-observable state of one in-flight fence.
`signaled`: the fence is signaled (GPU work done, or created signaled);
`pending`: the fence was handed to a `vkQueueSubmit` that succeeded, so the
GPU will signal it; `unsignaled`: reset and not handed to any submission —
waiting on it would block forever. -/
inductive FenceState where
  | signaled
  | pending
  | unsignaled
  deriving DecidableEq, Repr

/-- The Vulkan API calls `drawFrame` can perform, in recorded order.
Slot-indexed events carry the frame slot whose synchronization objects the
call uses. -/
inductive Event where
  | waitFence (slot : Nat)
  | acquire
  | recreateSwapChain
  | resetFence (slot : Nat)
  | getCommandBuffers
  | submit (slot : Nat)
  | present
  deriving DecidableEq, Repr

/-- The mutable `Application` state that `drawFrame` reads and writes:
`currentFrame`, the `framebufferResized` flag, and the in-flight fence ring. -/
structure DrawState where
  currentFrame : Nat
  framebufferResized : Bool
  fences : List FenceState
  deriving DecidableEq, Repr

/-- Oracle for the result codes returned by the three fallible Vulkan calls
inside `drawFrame`: `vkAcquireNextImageKHR`, `vkQueueSubmit`,
`vkQueuePresentKHR`. -/
structure DrawInputs where
  acquireResult : VkResult
  submitResult : VkResult
  presentResult : VkResult
  deriving DecidableEq, Repr

/-- Shallow embedding of `Application::drawFrame` (source lines 1169-1249).

Returns the ordered list of Vulkan calls performed and either the updated
state (normal return) or the message of the `std::runtime_error` thrown.
Control flow mirrors the source exactly:
wait on the current slot's fence; acquire; on `VK_ERROR_OUT_OF_DATE_KHR`
recreate the swap chain and return (state untouched); on any code other
than `VK_SUCCESS` / `VK_SUBOPTIMAL_KHR` throw; reset the fence; fetch the
user command buffers; submit (throw on failure; a successful submission
will signal the slot's fence, modelled by `FenceState.pending`); present;
if the present code is out-of-date or suboptimal or `framebufferResized`
is set, clear the flag and recreate; otherwise throw on any non-success
code; finally advance `currentFrame` modulo `MAX_NB_FRAMES_IN_FLIGHT`. -/
def drawFrame (inp : DrawInputs) (s : DrawState) :
    List Event × Except String DrawState :=
  let cf := s.currentFrame
  let ev0 := [Event.waitFence cf, Event.acquire]
  if inp.acquireResult = VkResult.errorOutOfDateKHR then
    (ev0 ++ [Event.recreateSwapChain], Except.ok s)
  else if inp.acquireResult ≠ VkResult.success ∧
          inp.acquireResult ≠ VkResult.suboptimalKHR then
    (ev0, Except.error "Failed to acquire swap chain image!")
  else
    let fences1 := s.fences.set cf FenceState.unsignaled
    let ev1 := ev0 ++ [Event.resetFence cf, Event.getCommandBuffers]
    if inp.submitResult ≠ VkResult.success then
      (ev1 ++ [Event.submit cf], Except.error "Failed to submit draw command buffer!")
    else
      let fences2 := fences1.set cf FenceState.pending
      let ev2 := ev1 ++ [Event.submit cf, Event.present]
      if inp.presentResult = VkResult.errorOutOfDateKHR ∨
         inp.presentResult = VkResult.suboptimalKHR ∨
         s.framebufferResized = true then
        (ev2 ++ [Event.recreateSwapChain],
         Except.ok { currentFrame := (cf + 1) % MAX_NB_FRAMES_IN_FLIGHT,
                     framebufferResized := false,
                     fences := fences2 })
      else if inp.presentResult ≠ VkResult.success then
        (ev2, Except.error "Failed to present swap chain image!")
      else
        (ev2, Except.ok { currentFrame := (cf + 1) % MAX_NB_FRAMES_IN_FLIGHT,
                          framebufferResized := s.framebufferResized,
                          fences := fences2 })

/-- Holds (as `true`) exactly when the embedded call ended in a thrown
`std::runtime_error`. -/
def raisesError (x : Except String DrawState) : Bool :=
  match x with
  | Except.error _ => true
  | Except.ok _ => false

/-- The `VkFenceCreateInfo.flags` field. -/
structure FenceCreateInfo where
  flags : Nat

/-- Constant `VK_FENCE_CREATE_SIGNALED_BIT` (value 1 in the Vulkan headers). -/
def VK_FENCE_CREATE_SIGNALED_BIT : Nat := 1

/-- Vulkan driver semantics of `vkCreateFence`: the fence starts signaled
exactly when the create-info flags contain `VK_FENCE_CREATE_SIGNALED_BIT`. -/
def createFence (info : FenceCreateInfo) : FenceState :=
  if info.flags &&& VK_FENCE_CREATE_SIGNALED_BIT ≠ 0 then FenceState.signaled
  else FenceState.unsignaled

/-- Shallow embedding of the fence ring built by
`Application::createSyncObjects` (source lines 2467-2489): one fence per
frame-in-flight slot, each created from a `VkFenceCreateInfo` whose flags
are `VK_FENCE_CREATE_SIGNALED_BIT`. -/
def createSyncObjectsFences : List FenceState :=
  let fenceInfo : FenceCreateInfo := { flags := VK_FENCE_CREATE_SIGNALED_BIT }
  (List.range MAX_NB_FRAMES_IN_FLIGHT).map (fun _ => createFence fenceInfo)

/-! ## Device selection and feature negotiation -/

/-- Vulkan API version constants as packed by `VK_MAKE_API_VERSION`
(variant 0): `(major <<< 22) ||| (minor <<< 12)`. -/
def VK_API_VERSION_1_0 : Nat := 1 <<< 22

/-- Constant `VK_API_VERSION_1_1`. -/
def VK_API_VERSION_1_1 : Nat := (1 <<< 22) + (1 <<< 12)

/-- Constant `VK_API_VERSION_1_2`. -/
def VK_API_VERSION_1_2 : Nat := (1 <<< 22) + (2 <<< 12)

/-- Constant `VK_API_VERSION_1_3`. -/
def VK_API_VERSION_1_3 : Nat := (1 <<< 22) + (3 <<< 12)

/-- Shallow embedding of the helper `compareFeatures` (source lines
1047-1062): walks the `VkBool32` flags of the required and the supported
feature structure in lockstep (the C++ pointer scan from `offset` to
`size`, here the two flag lists) and fails as soon as a required flag is
not supported or the tier's API version is not supported. -/
def compareFeatures : List Bool → List Bool → Bool → Bool
  | [], _, _ => true
  | _ :: _, [], _ => true
  | r :: rs, s :: ss, apiVersionSupported =>
    if r && (!s || !apiVersionSupported) then false
    else compareFeatures rs ss apiVersionSupported

/-- One entry of `VkQueueFamilyProperties` as `findQueueFamilies` reads it:
does the family support graphics commands, and does
`vkGetPhysicalDeviceSurfaceSupportKHR` report presentation support. -/
structure QueueFamily where
  graphics : Bool
  presentationSupport : Bool
  deriving DecidableEq, Repr

/-- Struct `queueFamilyIndices_t` (source lines 248-261), specialised to the two
roles the default implementation requires (`GRAPHICS_QUEUE_FAMILY`,
`PRESENTATION_QUEUE_FAMILY`). -/
structure QueueFamilyIndices where
  graphicsFamily : Option Nat
  presentationFamily : Option Nat
  deriving DecidableEq, Repr

/-- Method `queueFamilyIndices_t::isComplete`: all required roles assigned. -/
def QueueFamilyIndices.isComplete (q : QueueFamilyIndices) : Bool :=
  q.graphicsFamily.isSome && q.presentationFamily.isSome

/-- A `(format, colorSpace)` pair (`VkSurfaceFormatKHR`), as raw codes. -/
structure SurfaceFormat where
  format : Nat
  colorSpace : Nat
  deriving DecidableEq, Repr

/-- The facts about a physical device that the suitability checks read
through the Vulkan API: its queue families, supported device extensions,
surface formats and presentation modes for the target surface, the
device's reported `apiVersion`, and the feature flags it reports in the
base structure and in the 1.1 / 1.2 / 1.3 chained structures. -/
structure PhysicalDevice where
  queueFamilies : List QueueFamily
  supportedExtensions : List String
  surfaceFormats : List SurfaceFormat
  presentationModes : List Nat
  apiVersion : Nat
  supportedFeatures10 : List Bool
  supportedFeatures11 : List Bool
  supportedFeatures12 : List Bool
  supportedFeatures13 : List Bool
  deriving DecidableEq, Repr

/-- The part of the `config` struct that device selection reads: the
target Vulkan version, the required device extensions, and the required
feature flags of each version tier. -/
structure Config where
  vulkanVersion : Nat
  deviceExtensions : List String
  features10 : List Bool
  features11 : List Bool
  features12 : List Bool
  features13 : List Bool
  deriving DecidableEq, Repr

/-- Loop body of `Application::findQueueFamilies` (source lines 2055-2091):
scan the queue families in order, record the last family index supporting
each role, and break out as soon as the index map is complete. -/
def findQueueFamiliesAux : Nat → List QueueFamily → QueueFamilyIndices →
    QueueFamilyIndices
  | _, [], acc => acc
  | i, qf :: rest, acc =>
    let acc1 := if qf.graphics then { acc with graphicsFamily := some i } else acc
    let acc2 := if qf.presentationSupport then
        { acc1 with presentationFamily := some i } else acc1
    if acc2.isComplete then acc2 else findQueueFamiliesAux (i + 1) rest acc2

/-- Embedding of `Application::findQueueFamilies`. -/
def findQueueFamilies (dev : PhysicalDevice) : QueueFamilyIndices :=
  findQueueFamiliesAux 0 dev.queueFamilies ⟨none, none⟩

/-- Embedding of `Application::getRequiredDeviceExtensions` (source lines 2095-2118):
the configured extensions, plus `VK_KHR_portability_subset` whenever the
device supports it. -/
def getRequiredDeviceExtensions (cfg : Config) (dev : PhysicalDevice) :
    List String :=
  cfg.deviceExtensions ++
    (if dev.supportedExtensions.contains "VK_KHR_portability_subset" then
      ["VK_KHR_portability_subset"] else [])

/-- Embedding of `Application::checkDeviceExtensionSupport` (source lines 2122-2138):
every required extension appears in the device's supported-extension
list (the source erases the available names from a set of required names
and checks the set became empty). -/
def checkDeviceExtensionSupport (cfg : Config) (dev : PhysicalDevice) : Bool :=
  (getRequiredDeviceExtensions cfg dev).all
    (fun e => dev.supportedExtensions.contains e)

/-- The version-tiered feature check of `Application::isDeviceSuitable`
(source lines 1954-2048): when the configured target version is
`VK_API_VERSION_1_0`, only the base feature structure is compared;
otherwise the base tier is compared unconditionally and each of the
1.1 / 1.2 / 1.3 tiers is compared with its `apiVersionSupported` argument
set to whether the device's reported `apiVersion` reaches that tier. -/
def checkRequiredFeatures (cfg : Config) (dev : PhysicalDevice) : Bool :=
  if cfg.vulkanVersion = VK_API_VERSION_1_0 then
    compareFeatures cfg.features10 dev.supportedFeatures10 true
  else
    compareFeatures cfg.features10 dev.supportedFeatures10 true &&
    compareFeatures cfg.features11 dev.supportedFeatures11
      (decide (VK_API_VERSION_1_1 ≤ dev.apiVersion)) &&
    compareFeatures cfg.features12 dev.supportedFeatures12
      (decide (VK_API_VERSION_1_2 ≤ dev.apiVersion)) &&
    compareFeatures cfg.features13 dev.supportedFeatures13
      (decide (VK_API_VERSION_1_3 ≤ dev.apiVersion))

/-- Embedding of `Application::isDeviceSuitable` (source lines 1931-2051): queue-family
completeness, extension support and swap-chain adequacy (at least one
surface format and one presentation mode, only queried when the
extensions are supported) first dismiss inadequate devices; the
version-tiered feature check decides the rest. -/
def isDeviceSuitable (cfg : Config) (dev : PhysicalDevice) : Bool :=
  let indices := findQueueFamilies dev
  let extensionsSupported := checkDeviceExtensionSupport cfg dev
  let swapChainAdequate :=
    if extensionsSupported then
      !dev.surfaceFormats.isEmpty && !dev.presentationModes.isEmpty
    else false
  if !indices.isComplete || !extensionsSupported || !swapChainAdequate then
    false
  else
    checkRequiredFeatures cfg dev

/-- The selection loop of `Application::pickPhysicalDevice` (source lines
1905-1914): the first enumerated device that is suitable, if any. -/
def pickFirstSuitable (cfg : Config) : List PhysicalDevice →
    Option PhysicalDevice
  | [] => none
  | d :: rest =>
    if isDeviceSuitable cfg d then some d else pickFirstSuitable cfg rest

/-- Embedding of `Application::pickPhysicalDevice` (source lines 1892-1927): throws when
no device is enumerated at all, otherwise scans the enumeration order for
the first suitable device and throws when none is found. -/
def pickPhysicalDevice (cfg : Config) (devices : List PhysicalDevice) :
    Except String PhysicalDevice :=
  if devices.length = 0 then
    Except.error "Failed to find GPUs with Vulkan support!"
  else
    match pickFirstSuitable cfg devices with
    | some d => Except.ok d
    | none => Except.error "Failed to find a suitable GPU!"

/-! ## Logical-device queue deduplication -/

/-- Model of `std::set<uint32_t>::insert`: insertion into a strictly-sorted,
duplicate-free list. -/
def setInsert (x : Nat) : List Nat → List Nat
  | [] => [x]
  | y :: ys =>
    if x < y then x :: y :: ys
    else if x = y then y :: ys
    else y :: setInsert x ys

/-- The `uniqueQueueFamilies` set built by
`Application::createLogicalDevice` (source lines 2172-2176): the
`std::set` initialised with the graphics family index and the
presentation family index. -/
def uniqueQueueFamilies (graphicsFamily presentationFamily : Nat) :
    List Nat :=
  setInsert presentationFamily (setInsert graphicsFamily [])

/-- One `VkDeviceQueueCreateInfo` as filled by `createLogicalDevice`
(source lines 2179-2187). -/
structure DeviceQueueCreateInfo where
  queueFamilyIndex : Nat
  queueCount : Nat
  deriving DecidableEq, Repr

/-- The `queueCreateInfos` vector of `Application::createLogicalDevice`:
one create-info per element of the `uniqueQueueFamilies` set, each
requesting one queue. -/
def queueCreateInfos (graphicsFamily presentationFamily : Nat) :
    List DeviceQueueCreateInfo :=
  (uniqueQueueFamilies graphicsFamily presentationFamily).map
    (fun qf => { queueFamilyIndex := qf, queueCount := 1 })

/-! ## Swap-chain extent choice -/

/-- Struct `VkExtent2D`. -/
structure Extent2D where
  width : Nat
  height : Nat
  deriving DecidableEq, Repr

/-- The fields of `VkSurfaceCapabilitiesKHR` that `chooseSwapExtent`
reads. -/
structure SurfaceCapabilities where
  currentExtent : Extent2D
  minImageExtent : Extent2D
  maxImageExtent : Extent2D
  deriving DecidableEq, Repr

/-- The maximum value of `uint32_t`: the "ask the application"
sentinel for `currentExtent.width`. -/
def UINT32_MAX : Nat := 2 ^ 32 - 1

/-- Model of `std::clamp(v, lo, hi)`: `lo` if `v < lo`, else `hi` if `hi < v`,
else `v`. -/
def stdClamp (v lo hi : Nat) : Nat :=
  if v < lo then lo else if hi < v then hi else v

/-- Shallow embedding of `Application::chooseSwapExtent` (source lines
2432-2463): return the surface's `currentExtent` unless its width is the
`uint32` maximum sentinel; otherwise clamp the window's framebuffer pixel
size componentwise into `[minImageExtent, maxImageExtent]`. -/
def chooseSwapExtent (capabilities : SurfaceCapabilities)
    (framebufferWidth framebufferHeight : Nat) : Extent2D :=
  if capabilities.currentExtent.width ≠ UINT32_MAX then
    capabilities.currentExtent
  else
    { width := stdClamp framebufferWidth capabilities.minImageExtent.width
        capabilities.maxImageExtent.width,
      height := stdClamp framebufferHeight capabilities.minImageExtent.height
        capabilities.maxImageExtent.height }

/-! ## Image layout transitions -/

/-- The `VkImageLayout` values, with a catch-all for the remaining codes. -/
inductive VkImageLayout where
  | undefined
  | general
  | colorAttachmentOptimal
  | transferSrcOptimal
  | transferDstOptimal
  | shaderReadOnlyOptimal
  | presentSrcKHR
  | otherLayout (code : Nat)
  deriving DecidableEq, Repr

/-- Pipeline stage masks used by the transition helper. -/
def VK_PIPELINE_STAGE_TOP_OF_PIPE_BIT : Nat := 1

/-- Constant `VK_PIPELINE_STAGE_TRANSFER_BIT`. -/
def VK_PIPELINE_STAGE_TRANSFER_BIT : Nat := 4096

/-- Constant `VK_PIPELINE_STAGE_FRAGMENT_SHADER_BIT`. -/
def VK_PIPELINE_STAGE_FRAGMENT_SHADER_BIT : Nat := 128

/-- Constant `VK_ACCESS_TRANSFER_WRITE_BIT`. -/
def VK_ACCESS_TRANSFER_WRITE_BIT : Nat := 4096

/-- Constant `VK_ACCESS_TRANSFER_READ_BIT`. -/
def VK_ACCESS_TRANSFER_READ_BIT : Nat := 2048

/-- Constant `VK_ACCESS_SHADER_READ_BIT`. -/
def VK_ACCESS_SHADER_READ_BIT : Nat := 32

/-- The pipeline-barrier command recorded by
`recordTransitionImageLayoutCommand` on success: the barrier's access
masks and the source/destination stage masks of `vkCmdPipelineBarrier`. -/
structure TransitionBarrier where
  oldLayout : VkImageLayout
  newLayout : VkImageLayout
  srcAccessMask : Nat
  dstAccessMask : Nat
  sourceStage : Nat
  destinationStage : Nat
  deriving DecidableEq, Repr

/-- Shallow embedding of
`Application::recordTransitionImageLayoutCommand` (source lines
1525-1578): the two recognized transitions fill the barrier's access
masks and stages and record the pipeline barrier; any other layout pair
throws `std::invalid_argument` before `vkCmdPipelineBarrier` is reached,
so no barrier command is recorded (the error value carries no barrier). -/
def recordTransitionImageLayoutCommand (oldLayout newLayout : VkImageLayout) :
    Except String TransitionBarrier :=
  if oldLayout = VkImageLayout.undefined ∧
     newLayout = VkImageLayout.transferDstOptimal then
    Except.ok { oldLayout := oldLayout, newLayout := newLayout,
                srcAccessMask := 0,
                dstAccessMask := VK_ACCESS_TRANSFER_WRITE_BIT,
                sourceStage := VK_PIPELINE_STAGE_TOP_OF_PIPE_BIT,
                destinationStage := VK_PIPELINE_STAGE_TRANSFER_BIT }
  else if oldLayout = VkImageLayout.transferDstOptimal ∧
          newLayout = VkImageLayout.shaderReadOnlyOptimal then
    Except.ok { oldLayout := oldLayout, newLayout := newLayout,
                srcAccessMask := VK_ACCESS_TRANSFER_WRITE_BIT,
                dstAccessMask := VK_ACCESS_SHADER_READ_BIT,
                sourceStage := VK_PIPELINE_STAGE_TRANSFER_BIT,
                destinationStage := VK_PIPELINE_STAGE_FRAGMENT_SHADER_BIT }
  else
    Except.error "Unsupported layout transition!"

/-! ## Claims about the frame loop -/

/-- C1: when `vkAcquireNextImageKHR` returns `VK_ERROR_OUT_OF_DATE_KHR`,
`drawFrame` triggers exactly one swap-chain recreation, performs no submit
and no present, resets no fence, and returns with the whole state (in
particular `currentFrame` and the fence ring) unchanged, so the next
iteration retries with the same slot. -/
theorem drawFrame_acquire_out_of_date (sub pres : VkResult) (s : DrawState) :
    (drawFrame ⟨VkResult.errorOutOfDateKHR, sub, pres⟩ s).1.count
        Event.recreateSwapChain = 1 ∧
    (∀ j, Event.submit j ∉ (drawFrame ⟨VkResult.errorOutOfDateKHR, sub, pres⟩ s).1) ∧
    Event.present ∉ (drawFrame ⟨VkResult.errorOutOfDateKHR, sub, pres⟩ s).1 ∧
    (∀ j, Event.resetFence j ∉ (drawFrame ⟨VkResult.errorOutOfDateKHR, sub, pres⟩ s).1) ∧
    (drawFrame ⟨VkResult.errorOutOfDateKHR, sub, pres⟩ s).2 = Except.ok s := by
  simp [drawFrame, List.count_cons]

/-- C10: an acquisition that returns `VK_SUBOPTIMAL_KHR` is treated exactly
like a successful one: `drawFrame` behaves identically to the
`VK_SUCCESS` case, it does reset the slot's fence and submit, a present is
performed whenever the submission succeeds, and any swap-chain recreation
in the trace happens after the present call (it is the last recorded
call), never at acquire time. -/
theorem drawFrame_acquire_suboptimal_as_success (sub pres : VkResult)
    (s : DrawState) :
    drawFrame ⟨VkResult.suboptimalKHR, sub, pres⟩ s =
      drawFrame ⟨VkResult.success, sub, pres⟩ s ∧
    Event.resetFence s.currentFrame ∈
      (drawFrame ⟨VkResult.suboptimalKHR, sub, pres⟩ s).1 ∧
    Event.submit s.currentFrame ∈
      (drawFrame ⟨VkResult.suboptimalKHR, sub, pres⟩ s).1 ∧
    (sub = VkResult.success →
      Event.present ∈ (drawFrame ⟨VkResult.suboptimalKHR, sub, pres⟩ s).1) ∧
    (Event.recreateSwapChain ∈ (drawFrame ⟨VkResult.suboptimalKHR, sub, pres⟩ s).1 →
      Event.present ∈ (drawFrame ⟨VkResult.suboptimalKHR, sub, pres⟩ s).1 ∧
      (drawFrame ⟨VkResult.suboptimalKHR, sub, pres⟩ s).1.getLast? =
        some Event.recreateSwapChain) := by
  obtain ⟨cf, fb, fences⟩ := s
  cases fb <;> cases sub <;> cases pres <;> simp [drawFrame]

/-- Closed witness for `drawFrame_acquire_suboptimal_as_success` at a
concrete input with a successful submission. -/
theorem drawFrame_acquire_suboptimal_witness :
    VkResult.success = VkResult.success ∧
    Event.present ∈ (drawFrame ⟨VkResult.suboptimalKHR, VkResult.success,
      VkResult.success⟩ ⟨0, false, [FenceState.signaled, FenceState.signaled]⟩).1 := by
  refine ⟨rfl, ?_⟩
  exact (drawFrame_acquire_suboptimal_as_success VkResult.success VkResult.success
    ⟨0, false, [FenceState.signaled, FenceState.signaled]⟩).2.2.2.1 rfl

/-- C2: when the present call returns the suboptimal or out-of-date code,
or the external resize flag is set (and the frame got as far as
presenting: acquisition recognized, submission successful), the present
call is completed, exactly one swap-chain recreation is triggered and it
is the last call of the iteration (hence before the next frame's
acquire), and the returned state has the resize flag cleared and the slot
index advanced modulo `MAX_NB_FRAMES_IN_FLIGHT`. -/
theorem drawFrame_present_stale_recreates (inp : DrawInputs) (s : DrawState)
    (hacq : inp.acquireResult = VkResult.success ∨
            inp.acquireResult = VkResult.suboptimalKHR)
    (hsub : inp.submitResult = VkResult.success)
    (hpres : inp.presentResult = VkResult.errorOutOfDateKHR ∨
             inp.presentResult = VkResult.suboptimalKHR ∨
             s.framebufferResized = true) :
    Event.present ∈ (drawFrame inp s).1 ∧
    (drawFrame inp s).1.count Event.recreateSwapChain = 1 ∧
    (drawFrame inp s).1.getLast? = some Event.recreateSwapChain ∧
    (drawFrame inp s).2 = Except.ok
      { currentFrame := (s.currentFrame + 1) % MAX_NB_FRAMES_IN_FLIGHT,
        framebufferResized := false,
        fences := (s.fences.set s.currentFrame FenceState.unsignaled).set
          s.currentFrame FenceState.pending } := by
  obtain ⟨acq, sub, pres⟩ := inp
  obtain ⟨cf, fb, fences⟩ := s
  simp only at hacq hsub hpres
  subst hsub
  rcases hacq with rfl | rfl <;>
    rcases hpres with rfl | rfl | rfl <;>
      simp [drawFrame, List.count_cons]

/-- Closed witness for `drawFrame_present_stale_recreates`: a suboptimal
present at slot 0 completes the frame and advances to slot 1. -/
theorem drawFrame_present_stale_witness :
    (drawFrame ⟨VkResult.success, VkResult.success, VkResult.suboptimalKHR⟩
        ⟨0, false, [FenceState.signaled, FenceState.signaled]⟩).2 =
      Except.ok ⟨1, false, [FenceState.pending, FenceState.signaled]⟩ := by
  have h := drawFrame_present_stale_recreates
    ⟨VkResult.success, VkResult.success, VkResult.suboptimalKHR⟩
    ⟨0, false, [FenceState.signaled, FenceState.signaled]⟩
    (Or.inl rfl) rfl (Or.inr (Or.inl rfl))
  simpa using h.2.2.2

/-- The two result codes `drawFrame` accepts from the acquire call without
aborting (staleness at acquire is handled separately). -/
def acquireRecognized (r : VkResult) : Prop :=
  r = VkResult.success ∨ r = VkResult.suboptimalKHR

/-- The result codes `drawFrame` accepts from the present call: success
plus the two recognized staleness codes. -/
def presentRecognized (r : VkResult) : Prop :=
  r = VkResult.success ∨ r = VkResult.suboptimalKHR ∨
  r = VkResult.errorOutOfDateKHR

/-- The condition of claim C3 under which `drawFrame` is supposed to raise
a fatal error: the acquire call returns a code other than success,
suboptimal, or out-of-date; or the acquisition is accepted and the submit
call fails; or the acquisition is accepted, the submission succeeds, and
the present call returns a code other than success, suboptimal, or
out-of-date. -/
def fatalErrorCondition (inp : DrawInputs) : Prop :=
  (¬ acquireRecognized inp.acquireResult ∧
     inp.acquireResult ≠ VkResult.errorOutOfDateKHR) ∨
  (acquireRecognized inp.acquireResult ∧
     inp.submitResult ≠ VkResult.success) ∨
  (acquireRecognized inp.acquireResult ∧
     inp.submitResult = VkResult.success ∧
     ¬ presentRecognized inp.presentResult)

instance (r : VkResult) : Decidable (acquireRecognized r) := by
  unfold acquireRecognized
  infer_instance

instance (r : VkResult) : Decidable (presentRecognized r) := by
  unfold presentRecognized
  infer_instance

instance : DecidablePred fatalErrorCondition := by
  intro inp
  unfold fatalErrorCondition
  infer_instance

/-- C3 (amended): provided the external resize flag is clear when the
present call returns, `drawFrame` throws exactly under
`fatalErrorCondition`; and the two recognized staleness codes — whether
reported by acquire or, after a successful submission, by present — are
always handled internally by triggering recreation, never surfaced as an
error. -/
theorem drawFrame_fatal_error_iff (inp : DrawInputs) (s : DrawState)
    (hfb : s.framebufferResized = false) :
    (raisesError (drawFrame inp s).2 = true ↔ fatalErrorCondition inp) ∧
    (inp.acquireResult = VkResult.errorOutOfDateKHR →
      raisesError (drawFrame inp s).2 = false ∧
      Event.recreateSwapChain ∈ (drawFrame inp s).1) ∧
    ((acquireRecognized inp.acquireResult ∧
        inp.submitResult = VkResult.success ∧
        (inp.presentResult = VkResult.errorOutOfDateKHR ∨
         inp.presentResult = VkResult.suboptimalKHR)) →
      raisesError (drawFrame inp s).2 = false ∧
      Event.recreateSwapChain ∈ (drawFrame inp s).1) := by
  obtain ⟨acq, sub, pres⟩ := inp
  obtain ⟨cf, fb, fences⟩ := s
  simp only at hfb
  subst hfb
  cases acq <;> cases sub <;> cases pres <;>
    simp [drawFrame, raisesError, fatalErrorCondition, acquireRecognized,
      presentRecognized]

/-- Closed witness for `drawFrame_fatal_error_iff`: with the resize flag
clear, a fatal present code (`VK_ERROR_DEVICE_LOST` = -4) raises the
error. -/
theorem drawFrame_fatal_error_iff_witness :
    raisesError (drawFrame ⟨VkResult.success, VkResult.success,
        VkResult.other (-4)⟩
      ⟨0, false, [FenceState.signaled, FenceState.signaled]⟩).2 = true := by
  exact (drawFrame_fatal_error_iff
    ⟨VkResult.success, VkResult.success, VkResult.other (-4)⟩
    ⟨0, false, [FenceState.signaled, FenceState.signaled]⟩ rfl).1.mpr
    (Or.inr (Or.inr ⟨Or.inl rfl, rfl, by decide⟩))

/-- Counterexample to C3 as stated: when the external resize flag is set,
a present call that returns a fatal code (`VK_ERROR_DEVICE_LOST` = -4) is
swallowed by the recreation branch (`result == OUT_OF_DATE || result ==
SUBOPTIMAL || framebufferResized`, source lines 1237-1242) and no error
is raised, although the claim's error condition holds. -/
theorem drawFrame_fatal_error_iff_counterexample :
    ¬ (raisesError (drawFrame ⟨VkResult.success, VkResult.success,
          VkResult.other (-4)⟩
        ⟨0, true, [FenceState.signaled, FenceState.signaled]⟩).2 = true ↔
       fatalErrorCondition ⟨VkResult.success, VkResult.success,
         VkResult.other (-4)⟩) := by
  decide

/-- Helper: handing the current slot's (previously reset) fence to a
successful submission leaves no fence of the ring in the dead
`unsignaled` state: the reset-then-submit pair of writes amounts to
setting the slot to `pending`. -/
theorem fences_set_pending_ne_unsignaled {l : List FenceState} {cf : Nat}
    (hinv : ∀ f ∈ l, f ≠ FenceState.unsignaled) :
    ∀ f ∈ l.set cf FenceState.pending, f ≠ FenceState.unsignaled := by
  intro f hf
  rcases List.mem_or_eq_of_mem_set hf with h | rfl
  · exact hinv f h
  · simp

/-- C9: the fence ring built by `createSyncObjects` is entirely signaled
(every `VkFenceCreateInfo` carries `VK_FENCE_CREATE_SIGNALED_BIT`), so the
first fence-wait of each slot returns immediately; `drawFrame` preserves
the invariant that no fence is left reset without a submission that will
signal it; and a fence is reset in an iteration only if that iteration
also hands the same slot's fence to `vkQueueSubmit`. -/
theorem createSyncObjects_fence_safety :
    (∀ f ∈ createSyncObjectsFences, f = FenceState.signaled) ∧
    (∀ (inp : DrawInputs) (s s' : DrawState),
      (∀ f ∈ s.fences, f ≠ FenceState.unsignaled) →
      (drawFrame inp s).2 = Except.ok s' →
      ∀ f ∈ s'.fences, f ≠ FenceState.unsignaled) ∧
    (∀ (inp : DrawInputs) (s : DrawState) (j : Nat),
      Event.resetFence j ∈ (drawFrame inp s).1 →
      Event.submit j ∈ (drawFrame inp s).1) := by
  refine ⟨by decide, ?_, ?_⟩
  · intro inp s s' hinv hok
    obtain ⟨acq, sub, pres⟩ := inp
    obtain ⟨cf, fb, fences⟩ := s
    cases acq <;> cases sub <;> cases pres <;> cases fb <;>
      simp [drawFrame] at hok <;>
        (subst hok; first
          | exact hinv
          | exact fences_set_pending_ne_unsignaled hinv)
  · intro inp s j hreset
    obtain ⟨acq, sub, pres⟩ := inp
    obtain ⟨cf, fb, fences⟩ := s
    cases acq <;> cases sub <;> cases pres <;> cases fb <;>
      simp [drawFrame] at hreset ⊢ <;> simp [hreset]

/-- Closed witness for `createSyncObjects_fence_safety`: a full successful
frame from the freshly created, all-signaled ring leaves no dead fence,
and the slot-0 reset is matched by a slot-0 submission. -/
theorem createSyncObjects_fence_safety_witness :
    FenceState.pending ≠ FenceState.unsignaled ∧
    Event.submit 0 ∈ (drawFrame
      ⟨VkResult.success, VkResult.success, VkResult.success⟩
      ⟨0, false, createSyncObjectsFences⟩).1 := by
  constructor
  · exact createSyncObjects_fence_safety.2.1
      ⟨VkResult.success, VkResult.success, VkResult.success⟩
      ⟨0, false, createSyncObjectsFences⟩
      ⟨1, false, [FenceState.pending, FenceState.signaled]⟩
      (by decide) (by rfl) FenceState.pending (by decide)
  · exact createSyncObjects_fence_safety.2.2
      ⟨VkResult.success, VkResult.success, VkResult.success⟩
      ⟨0, false, createSyncObjectsFences⟩ 0 (by decide)

/-! ## Claims about device selection -/

/-- Helper: the feature scan fails as soon as some flag is required but
either not supported or behind an unsupported tier version. -/
theorem compareFeatures_eq_false {r s : List Bool} {i : Nat} {api : Bool}
    (hr : r.get? i = some true) (hi : i < s.length)
    (hs : s.get? i = some false ∨ api = false) :
    compareFeatures r s api = false := by
  induction r generalizing s i with
  | nil => simp at hr
  | cons b rs ih =>
    cases s with
    | nil => simp at hi
    | cons c ss =>
      cases i with
      | zero =>
        simp at hr
        subst hr
        rcases hs with hc | hapi
        · simp at hc
          subst hc
          simp [compareFeatures]
        · subst hapi
          simp [compareFeatures]
      | succ n =>
        rw [List.get?_cons_succ] at hr
        have hi2 : n < ss.length := by simpa using hi
        have hs2 : ss.get? n = some false ∨ api = false := by
          rcases hs with h | h
          · exact Or.inl (by rwa [List.get?_cons_succ] at h)
          · exact Or.inr h
        rw [compareFeatures]
        split
        · rfl
        · exact ih hr hi2 hs2

/-- Helper: a failed feature check dismisses the device whatever the
earlier suitability checks concluded. -/
theorem isDeviceSuitable_eq_false_of_features {cfg : Config}
    {dev : PhysicalDevice} (h : checkRequiredFeatures cfg dev = false) :
    isDeviceSuitable cfg dev = false := by
  simp [isDeviceSuitable, h]

/-- C4 (amended): tier-1.0 base flags are always checked, and — provided
the configured target Vulkan version is not `VK_API_VERSION_1_0` — every
flag required in tier 1.1, 1.2 or 1.3 rejects the device when the device
does not report it as supported or when the device's reported API version
is below the tier's version, even if the flag is reported supported. -/
theorem isDeviceSuitable_tiered_feature_gating (cfg : Config)
    (dev : PhysicalDevice) :
    (∀ i, cfg.features10.get? i = some true →
      i < dev.supportedFeatures10.length →
      dev.supportedFeatures10.get? i = some false →
      isDeviceSuitable cfg dev = false) ∧
    (cfg.vulkanVersion ≠ VK_API_VERSION_1_0 →
      (∀ i, cfg.features11.get? i = some true →
        i < dev.supportedFeatures11.length →
        (dev.supportedFeatures11.get? i = some false ∨
         dev.apiVersion < VK_API_VERSION_1_1) →
        isDeviceSuitable cfg dev = false) ∧
      (∀ i, cfg.features12.get? i = some true →
        i < dev.supportedFeatures12.length →
        (dev.supportedFeatures12.get? i = some false ∨
         dev.apiVersion < VK_API_VERSION_1_2) →
        isDeviceSuitable cfg dev = false) ∧
      (∀ i, cfg.features13.get? i = some true →
        i < dev.supportedFeatures13.length →
        (dev.supportedFeatures13.get? i = some false ∨
         dev.apiVersion < VK_API_VERSION_1_3) →
        isDeviceSuitable cfg dev = false)) := by
  refine ⟨?_, fun hv => ⟨?_, ?_, ?_⟩⟩
  · intro i hr hi hs
    refine isDeviceSuitable_eq_false_of_features ?_
    have h10 : compareFeatures cfg.features10 dev.supportedFeatures10 true
        = false := compareFeatures_eq_false hr hi (Or.inl hs)
    unfold checkRequiredFeatures
    split <;> simp [h10]
  · intro i hr hi hs
    refine isDeviceSuitable_eq_false_of_features ?_
    have h11 : compareFeatures cfg.features11 dev.supportedFeatures11
        (decide (VK_API_VERSION_1_1 ≤ dev.apiVersion)) = false := by
      rcases hs with hs | hs
      · exact compareFeatures_eq_false hr hi (Or.inl hs)
      · exact compareFeatures_eq_false hr hi
          (Or.inr (decide_eq_false (Nat.not_le.mpr hs)))
    unfold checkRequiredFeatures
    rw [if_neg hv]
    simp [h11]
  · intro i hr hi hs
    refine isDeviceSuitable_eq_false_of_features ?_
    have h12 : compareFeatures cfg.features12 dev.supportedFeatures12
        (decide (VK_API_VERSION_1_2 ≤ dev.apiVersion)) = false := by
      rcases hs with hs | hs
      · exact compareFeatures_eq_false hr hi (Or.inl hs)
      · exact compareFeatures_eq_false hr hi
          (Or.inr (decide_eq_false (Nat.not_le.mpr hs)))
    unfold checkRequiredFeatures
    rw [if_neg hv]
    simp [h12]
  · intro i hr hi hs
    refine isDeviceSuitable_eq_false_of_features ?_
    have h13 : compareFeatures cfg.features13 dev.supportedFeatures13
        (decide (VK_API_VERSION_1_3 ≤ dev.apiVersion)) = false := by
      rcases hs with hs | hs
      · exact compareFeatures_eq_false hr hi (Or.inl hs)
      · exact compareFeatures_eq_false hr hi
          (Or.inr (decide_eq_false (Nat.not_le.mpr hs)))
    unfold checkRequiredFeatures
    rw [if_neg hv]
    simp [h13]

/-- A caller configured for Vulkan 1.3 requiring one tier-1.1 flag. -/
def tieredConfig : Config :=
  { vulkanVersion := VK_API_VERSION_1_3, deviceExtensions := [],
    features10 := [], features11 := [true], features12 := [],
    features13 := [] }

/-- A device passing every non-feature check that reports the tier-1.1
flag as supported but whose API version is only 1.0. -/
def oldApiDevice : PhysicalDevice :=
  { queueFamilies := [{ graphics := true, presentationSupport := true }],
    supportedExtensions := [], surfaceFormats := [{ format := 50, colorSpace := 0 }],
    presentationModes := [2], apiVersion := VK_API_VERSION_1_0,
    supportedFeatures10 := [], supportedFeatures11 := [true],
    supportedFeatures12 := [], supportedFeatures13 := [] }

/-- Closed witness for `isDeviceSuitable_tiered_feature_gating`: the boundary
scenario of the spec — a device reporting a required tier-1.1 flag as
supported but with API version 1.0 is rejected. -/
theorem isDeviceSuitable_tiered_feature_gating_witness :
    isDeviceSuitable tieredConfig oldApiDevice = false := by
  exact ((isDeviceSuitable_tiered_feature_gating tieredConfig
    oldApiDevice).2 (by decide)).1 0 rfl (by decide) (Or.inr (by decide))

/-- A caller configured for Vulkan 1.0 that (erroneously, per claim C4)
also requires one tier-1.1 flag. -/
def vulkan10Config : Config :=
  { vulkanVersion := VK_API_VERSION_1_0, deviceExtensions := [],
    features10 := [], features11 := [true], features12 := [],
    features13 := [] }

/-- A device passing every non-feature check that does **not** support the
required tier-1.1 flag. -/
def missing11Device : PhysicalDevice :=
  { queueFamilies := [{ graphics := true, presentationSupport := true }],
    supportedExtensions := [], surfaceFormats := [{ format := 50, colorSpace := 0 }],
    presentationModes := [2], apiVersion := VK_API_VERSION_1_3,
    supportedFeatures10 := [], supportedFeatures11 := [false],
    supportedFeatures12 := [], supportedFeatures13 := [] }

/-- Counterexample to C4 as stated: when the configured target version is
`VK_API_VERSION_1_0`, `isDeviceSuitable` (source lines 1955-1966) compares
only the base feature structure, so a device lacking a required tier-1.1
flag is accepted instead of rejected. -/
theorem isDeviceSuitable_vulkan10_skips_tiers_counterexample :
    vulkan10Config.features11.get? 0 = some true ∧
    missing11Device.supportedFeatures11.get? 0 = some false ∧
    isDeviceSuitable vulkan10Config missing11Device = true := by
  decide

/-- Helper: the selection loop of `pickPhysicalDevice` returns the first
suitable device in enumeration order. -/
theorem pickFirstSuitable_eq_find (cfg : Config) (devices : List PhysicalDevice) :
    pickFirstSuitable cfg devices =
      devices.find? (fun d => isDeviceSuitable cfg d) := by
  induction devices with
  | nil => rfl
  | cons d rest ih =>
    rw [pickFirstSuitable, List.find?]
    cases h : isDeviceSuitable cfg d <;> simp [h, ih]

/-- C5: physical-device selection picks the first enumerated device that
is suitable; it errors when no device is enumerated at all and when none
is suitable; and suitability is exactly the conjunction of queue-family
completeness, required-extension support, swap-chain adequacy (at least
one surface format and one presentation mode), and the required-feature
check. -/
theorem pickPhysicalDevice_first_match (cfg : Config)
    (devices : List PhysicalDevice) :
    pickPhysicalDevice cfg devices =
      (if devices.isEmpty then
        Except.error "Failed to find GPUs with Vulkan support!"
      else
        match devices.find? (fun d => isDeviceSuitable cfg d) with
        | some d => Except.ok d
        | none => Except.error "Failed to find a suitable GPU!") ∧
    (∀ d, isDeviceSuitable cfg d =
      ((findQueueFamilies d).isComplete &&
       checkDeviceExtensionSupport cfg d &&
       (!d.surfaceFormats.isEmpty && !d.presentationModes.isEmpty) &&
       checkRequiredFeatures cfg d)) := by
  constructor
  · cases devices with
    | nil => rfl
    | cons d rest =>
      rw [pickPhysicalDevice, pickFirstSuitable_eq_find]
      simp
  · intro d
    unfold isDeviceSuitable
    cases hc : (findQueueFamilies d).isComplete <;>
      cases he : checkDeviceExtensionSupport cfg d <;>
        cases hf : d.surfaceFormats.isEmpty <;>
          cases hp : d.presentationModes.isEmpty <;>
            simp [hc, he, hf, hp]

/-! ## Claims about logical-device creation -/

/-- C6: the queue-create request list of `createLogicalDevice` holds
exactly one entry per unique queue-family index: a single entry when the
graphics and presentation roles share a family, two entries when they
differ, and never a duplicated family index; the requested indices are
exactly the members of the `uniqueQueueFamilies` set. -/
theorem createLogicalDevice_unique_queue_requests
    (graphicsFamily presentationFamily : Nat) :
    (queueCreateInfos graphicsFamily presentationFamily).length =
      (if graphicsFamily = presentationFamily then 1 else 2) ∧
    ((queueCreateInfos graphicsFamily presentationFamily).map
      (fun ci => ci.queueFamilyIndex)).Nodup ∧
    (queueCreateInfos graphicsFamily presentationFamily).map
      (fun ci => ci.queueFamilyIndex) =
      uniqueQueueFamilies graphicsFamily presentationFamily := by
  rcases Nat.lt_trichotomy presentationFamily graphicsFamily with h | h | h
  · have h1 : ¬ graphicsFamily = presentationFamily := by omega
    simp [queueCreateInfos, uniqueQueueFamilies, setInsert, h1, h,
      Nat.ne_of_lt h]
  · subst h
    simp [queueCreateInfos, uniqueQueueFamilies, setInsert]
  · have h1 : ¬ graphicsFamily = presentationFamily := by omega
    have h2 : ¬ presentationFamily < graphicsFamily := by omega
    have h3 : ¬ presentationFamily = graphicsFamily := by omega
    simp [queueCreateInfos, uniqueQueueFamilies, setInsert, h1, h2, h3,
      Nat.ne_of_lt h]

/-! ## Claims about swap-chain extent choice -/

/-- Helper: `std::clamp` lands in `[lo, hi]` and equals
`max lo (min v hi)` whenever `lo ≤ hi`. -/
theorem stdClamp_spec (v lo hi : Nat) (hlohi : lo ≤ hi) :
    lo ≤ stdClamp v lo hi ∧ stdClamp v lo hi ≤ hi ∧
    stdClamp v lo hi = max lo (min v hi) := by
  unfold stdClamp
  split_ifs with h1 h2 <;> refine ⟨?_, ?_, ?_⟩ <;> omega

/-- C7: `chooseSwapExtent` returns the surface's `currentExtent` whenever
its width is not the `uint32`-max "ask the application" sentinel;
otherwise it returns the framebuffer pixel size clamped componentwise
into the surface's `[minImageExtent, maxImageExtent]` bounds. -/
theorem chooseSwapExtent_spec (caps : SurfaceCapabilities)
    (framebufferWidth framebufferHeight : Nat)
    (hw : caps.minImageExtent.width ≤ caps.maxImageExtent.width)
    (hh : caps.minImageExtent.height ≤ caps.maxImageExtent.height) :
    (caps.currentExtent.width ≠ UINT32_MAX →
      chooseSwapExtent caps framebufferWidth framebufferHeight =
        caps.currentExtent) ∧
    (caps.currentExtent.width = UINT32_MAX →
      caps.minImageExtent.width ≤
        (chooseSwapExtent caps framebufferWidth framebufferHeight).width ∧
      (chooseSwapExtent caps framebufferWidth framebufferHeight).width ≤
        caps.maxImageExtent.width ∧
      caps.minImageExtent.height ≤
        (chooseSwapExtent caps framebufferWidth framebufferHeight).height ∧
      (chooseSwapExtent caps framebufferWidth framebufferHeight).height ≤
        caps.maxImageExtent.height ∧
      (chooseSwapExtent caps framebufferWidth framebufferHeight).width =
        max caps.minImageExtent.width
          (min framebufferWidth caps.maxImageExtent.width) ∧
      (chooseSwapExtent caps framebufferWidth framebufferHeight).height =
        max caps.minImageExtent.height
          (min framebufferHeight caps.maxImageExtent.height)) := by
  constructor
  · intro h
    simp [chooseSwapExtent, h]
  · intro h
    have hcw := stdClamp_spec framebufferWidth caps.minImageExtent.width
      caps.maxImageExtent.width hw
    have hch := stdClamp_spec framebufferHeight caps.minImageExtent.height
      caps.maxImageExtent.height hh
    simp [chooseSwapExtent, h]
    exact ⟨hcw.1, hcw.2.1, hch.1, hch.2.1, hcw.2.2, hch.2.2⟩

/-- Closed witness for `chooseSwapExtent_spec`: in the sentinel case a
400-pixel-wide framebuffer is clamped into the surface's [100, 200]
width bounds. -/
theorem chooseSwapExtent_spec_witness :
    (chooseSwapExtent ⟨⟨UINT32_MAX, 600⟩, ⟨100, 100⟩, ⟨200, 200⟩⟩
      400 150).width = max 100 (min 400 200) := by
  exact ((chooseSwapExtent_spec ⟨⟨UINT32_MAX, 600⟩, ⟨100, 100⟩, ⟨200, 200⟩⟩
    400 150 (by decide) (by decide)).2 rfl).2.2.2.2.1

/-! ## Claims about layout transitions -/

/-- C8: the layout-transition helper recognizes exactly the two pairs
(UNDEFINED → TRANSFER_DST_OPTIMAL) and
(TRANSFER_DST_OPTIMAL → SHADER_READ_ONLY_OPTIMAL); every other pair
produces the invalid-argument error (and hence no recorded barrier),
while the two recognized pairs record the barrier with the source's
access masks and pipeline stages. -/
theorem recordTransitionImageLayout_recognized_pairs
    (oldLayout newLayout : VkImageLayout) :
    (recordTransitionImageLayoutCommand oldLayout newLayout =
        Except.error "Unsupported layout transition!" ↔
      ¬ ((oldLayout = VkImageLayout.undefined ∧
          newLayout = VkImageLayout.transferDstOptimal) ∨
         (oldLayout = VkImageLayout.transferDstOptimal ∧
          newLayout = VkImageLayout.shaderReadOnlyOptimal))) ∧
    recordTransitionImageLayoutCommand VkImageLayout.undefined
        VkImageLayout.transferDstOptimal =
      Except.ok { oldLayout := VkImageLayout.undefined,
                  newLayout := VkImageLayout.transferDstOptimal,
                  srcAccessMask := 0,
                  dstAccessMask := VK_ACCESS_TRANSFER_WRITE_BIT,
                  sourceStage := VK_PIPELINE_STAGE_TOP_OF_PIPE_BIT,
                  destinationStage := VK_PIPELINE_STAGE_TRANSFER_BIT } ∧
    recordTransitionImageLayoutCommand VkImageLayout.transferDstOptimal
        VkImageLayout.shaderReadOnlyOptimal =
      Except.ok { oldLayout := VkImageLayout.transferDstOptimal,
                  newLayout := VkImageLayout.shaderReadOnlyOptimal,
                  srcAccessMask := VK_ACCESS_TRANSFER_WRITE_BIT,
                  dstAccessMask := VK_ACCESS_SHADER_READ_BIT,
                  sourceStage := VK_PIPELINE_STAGE_TRANSFER_BIT,
                  destinationStage := VK_PIPELINE_STAGE_FRAGMENT_SHADER_BIT } := by
  refine ⟨?_, by rfl, by rfl⟩
  unfold recordTransitionImageLayoutCommand
  split_ifs with h1 h2
  · simp [h1]
  · simp [h1, h2]
  · simp [h1, h2]
